import Mathlib

/-!
Shallow embedding of `src/models/linear_servo.py` from mcvella/viam-linear-servo.

Modelling conventions:
* Python `int` is `ℤ`; Python `float` is modelled by exact rational arithmetic
  over `ℚ` (IEEE-754 rounding is not modelled).
* The awaited side effects of a method (motor-driver calls and the timed wait)
  are recorded as an explicit `MotorEvent` trace, in issue order.
* Python raises `ZeroDivisionError` on division by zero, while `ℚ` division by
  zero silently yields `0`; to stay faithful, `move` returns `Except PyError _`
  and checks each denominator exactly where the Python division occurs.
* `asyncio` cancellation of a `move` call is modelled by `movePartial`, which
  cuts the event trace at an await point; the source has no try/finally, so a
  cancelled run simply performs a prefix of the awaits and never reaches the
  position assignment on line 159.
-/

namespace LinearServo

/-- One awaited side effect issued by the servo: a motor-driver call
(`motor.set_power`, `motor.stop`, `motor.is_moving`) or the timed wait
(`asyncio.sleep`). -/
inductive MotorEvent where
  | setPower (p : ℚ)
  | sleep (t : ℚ)
  | stopMotor
  | isMovingQuery
deriving DecidableEq, Repr

/-- Python raises on division by zero; this is the only exception the embedded
numeric code can raise. -/
inductive PyError where
  | zeroDivision
deriving DecidableEq, Repr

/-- The configuration fields `reconfigure` stores on the instance
(lines 93-97 of `linear_servo.py`). `start_position` is not stored: the class
attribute `self.start_position` is the constant `90` and is never reassigned. -/
structure Config where
  length_inches : ℚ
  mm_per_second : ℚ
  max_position_degrees : ℤ
  min_position_degrees : ℤ
  total_degrees : ℤ
deriving DecidableEq, Repr

/-- Line 133: `max(self.min_position_degrees, min(angle, self.max_position_degrees))`. -/
def clampTarget (cfg : Config) (angle : ℤ) : ℤ :=
  max cfg.min_position_degrees (min angle cfg.max_position_degrees)

/-- Line 143: `self.length_inches / self.total_degrees`. -/
def inches_per_degree (cfg : Config) : ℚ :=
  cfg.length_inches / (cfg.total_degrees : ℚ)

/-- Line 144: `abs(degrees_to_move) * inches_per_degree`. -/
def inches_to_move (cfg : Config) (degrees_to_move : ℤ) : ℚ :=
  ((|degrees_to_move| : ℤ) : ℚ) * inches_per_degree cfg

/-- Line 147: `inches_to_move * 25.4` (inches to millimetres; `25.4 = 127/5`). -/
def mm_to_move (cfg : Config) (degrees_to_move : ℤ) : ℚ :=
  inches_to_move cfg degrees_to_move * (127 / 5)

/-- Line 148: `mm_to_move / self.mm_per_second`. -/
def time_needed (cfg : Config) (degrees_to_move : ℤ) : ℚ :=
  mm_to_move cfg degrees_to_move / cfg.mm_per_second

/-- Result of a completed `move`: the new `self.position` and the trace of
awaited events the call issued. -/
structure MoveResult where
  position : ℤ
  events : List MotorEvent
deriving DecidableEq, Repr

/-- Lines 124-159, `LinearServo.move`, run to completion.
The two `Except.error` branches model the `ZeroDivisionError` Python raises on
line 143 (`total_degrees == 0`) and line 148 (`mm_per_second == 0`); both sit
after the early return of line 139, exactly where the Python divisions occur.
`int(target_position)` on line 159 is the identity since `target_position`
is already an `int`. -/
def move (cfg : Config) (position angle : ℤ) : Except PyError MoveResult :=
  let target_position : ℤ := clampTarget cfg angle
  let degrees_to_move : ℤ := target_position - position
  if degrees_to_move = 0 then
    Except.ok ⟨position, []⟩
  else if cfg.total_degrees = 0 then
    Except.error PyError.zeroDivision
  else if cfg.mm_per_second = 0 then
    Except.error PyError.zeroDivision
  else
    let power : ℚ := if degrees_to_move > 0 then 1 else -1
    Except.ok ⟨target_position,
      [MotorEvent.setPower power,
       MotorEvent.sleep (time_needed cfg degrees_to_move),
       MotorEvent.stopMotor]⟩

/-- A `move` call whose task is cancelled after `k` of its awaits completed
(the awaits, in order, are `motor.set_power`, `asyncio.sleep`, `motor.stop`).
The source wraps none of them in try/finally, so the cancelled await and
everything after it — including the position assignment on line 159 — do not
run: only the first `k` events are issued and the position is unchanged.
If all awaits completed the move is the completed one. -/
def movePartial (cfg : Config) (position angle : ℤ) (k : ℕ) : ℤ × List MotorEvent :=
  match move cfg position angle with
  | Except.error _ => (position, [])
  | Except.ok r =>
      if r.events.length ≤ k then (r.position, r.events)
      else (position, r.events.take k)

/-- One calibration leg as issued by `initialize`: the position the servo
believed it was at, the angle requested, and the events the `move` issued. -/
structure Leg where
  startPos : ℤ
  requested : ℤ
  events : List MotorEvent
deriving DecidableEq, Repr

/-- Lines 103-122, `LinearServo.initialize` (the calibration sequence), run to
completion: capture `target_position = self.position`, then three sequential
`move` calls — to `min_position_degrees`, to `max_position_degrees`, then to
the captured target. Returns the final position and the three legs in issue
order; an exception in a leg aborts the sequence. -/
def initializeSeq (cfg : Config) (position : ℤ) : Except PyError (ℤ × List Leg) :=
  let target_position : ℤ := position
  match move cfg position cfg.min_position_degrees with
  | Except.error e => Except.error e
  | Except.ok r1 =>
    match move cfg r1.position cfg.max_position_degrees with
    | Except.error e => Except.error e
    | Except.ok r2 =>
      match move cfg r2.position target_position with
      | Except.error e => Except.error e
      | Except.ok r3 =>
        Except.ok (r3.position,
          [⟨position, cfg.min_position_degrees, r1.events⟩,
           ⟨r1.position, cfg.max_position_degrees, r2.events⟩,
           ⟨r2.position, target_position, r3.events⟩])

/-- A sequence of completed `move` calls threading `self.position`; returns the
final position. -/
def moveSeq (cfg : Config) : ℤ → List ℤ → Except PyError ℤ
  | position, [] => Except.ok position
  | position, a :: rest =>
    match move cfg position a with
    | Except.error e => Except.error e
    | Except.ok r => moveSeq cfg r.position rest

/-- The flat attribute map handed to `validate_config` / `reconfigure`
(`struct_to_dict(config.attributes)`), restricted to the keys the source
reads; a `none` field models an absent key. -/
structure Attributes where
  motor : Option String
  length_inches : Option ℚ
  mm_per_second : Option ℚ
  max_position_degrees : Option ℤ
  min_position_degrees : Option ℤ
  total_degrees : Option ℤ
  start_position : Option ℤ
deriving DecidableEq, Repr

/-- Lines 47-77, `LinearServo.validate_config`: raise unless `motor`,
`length_inches` and `mm_per_second` are all present; on success return the
required-dependency list `[motor]` and the empty optional list. Note that no
numeric value is inspected — only presence of the three keys. -/
def validate_config (a : Attributes) : Except String (List String × List String) :=
  match a.motor with
  | none => Except.error "motor is required"
  | some m =>
    match a.length_inches with
    | none => Except.error "length_inches is required"
    | some _ =>
      match a.mm_per_second with
      | none => Except.error "mm_per_second is required"
      | some _ => Except.ok ([m], [])

/-- The mutable instance state the operations touch: the stored configuration,
`self.position`, and whether `reconfigure` has scheduled the calibration task
(`asyncio.ensure_future(self.initialize())`, line 99). -/
structure ServoState where
  cfg : Config
  position : ℤ
  calibrationScheduled : Bool
deriving DecidableEq, Repr

/-- A freshly constructed instance: the class-attribute defaults of lines
23-27 (`position = 0`, `max = 180`, `min = 0`, `total = 180`);
`length_inches` and `mm_per_second` carry no default in the source and are
unconditionally overwritten by `reconfigure`, so their value here is
irrelevant (we use 0). No calibration has been scheduled yet. -/
def freshState : ServoState :=
  { cfg := { length_inches := 0, mm_per_second := 0, max_position_degrees := 180
           , min_position_degrees := 0, total_degrees := 180 }
  , position := 0
  , calibrationScheduled := false }

/-- Lines 79-101, `LinearServo.reconfigure`: store each attribute, defaulting
`length_inches` and `mm_per_second` to `0` and the angular fields to the
current instance values; set `self.position` to `start_position` defaulted to
`self.start_position` (the constant `90`); then schedule the calibration task.
It performs no numeric validation and cannot fail (the motor dependency is
resolved by the framework after `validate_config` succeeded). -/
def reconfigure (prev : ServoState) (a : Attributes) : ServoState :=
  { cfg := { length_inches := a.length_inches.getD 0
           , mm_per_second := a.mm_per_second.getD 0
           , max_position_degrees := a.max_position_degrees.getD prev.cfg.max_position_degrees
           , min_position_degrees := a.min_position_degrees.getD prev.cfg.min_position_degrees
           , total_degrees := a.total_degrees.getD prev.cfg.total_degrees }
  , position := a.start_position.getD 90
  , calibrationScheduled := true }

/-- Configuration intake as the host framework drives it: `validate_config`
first; only on success is the component (re)configured, which is when the
calibration task gets scheduled. A validation error rejects the whole
configuration. -/
def configure (prev : ServoState) (a : Attributes) : Except String ServoState :=
  match validate_config a with
  | Except.error msg => Except.error msg
  | Except.ok _ => Except.ok (reconfigure prev a)

/-- Lines 161-168, `LinearServo.get_position`: return `self.position`; no state
change, no motor interaction. Result: (returned value, state after, events). -/
def get_position (s : ServoState) : ℤ × ServoState × List MotorEvent :=
  (s.position, s, [])

/-- Lines 170-177, `LinearServo.stop`: forward `motor.stop()` unconditionally;
no state change. Result: (state after, events). -/
def stop (s : ServoState) : ServoState × List MotorEvent :=
  (s, [MotorEvent.stopMotor])

/-- Lines 179-180, `LinearServo.is_moving`: forward the query to the motor and
return its answer `motorAnswer` verbatim; no state change.
Result: (returned value, state after, events). -/
def is_moving (s : ServoState) (motorAnswer : Bool) : Bool × ServoState × List MotorEvent :=
  (motorAnswer, s, [MotorEvent.isMovingQuery])

/-- The configuration of the worked example in the specification:
`length_inches = 18`, `mm_per_second = 25.4`, `total_degrees = 180`,
default bounds `[0, 180]`. -/
def cfgDemo : Config :=
  { length_inches := 18, mm_per_second := 127 / 5, max_position_degrees := 180
  , min_position_degrees := 0, total_degrees := 180 }

end LinearServo

open LinearServo

/-! Helper lemmas shared by several claims. -/

/-- Clamping an already in-range angle is the identity. -/
lemma clampTarget_self (cfg : Config) (a : ℤ)
    (h1 : cfg.min_position_degrees ≤ a) (h2 : a ≤ cfg.max_position_degrees) :
    clampTarget cfg a = a := by
  simp [clampTarget, min_eq_left h2, max_eq_right h1]

/-- When the bounds are ordered, the clamped target lies inside them. -/
lemma clampTarget_mem (cfg : Config) (a : ℤ)
    (h : cfg.min_position_degrees ≤ cfg.max_position_degrees) :
    cfg.min_position_degrees ≤ clampTarget cfg a ∧
      clampTarget cfg a ≤ cfg.max_position_degrees := by
  constructor
  · exact le_max_left _ _
  · exact max_le h (min_le_right _ _)

/-- Closed form of a completed `move` when the denominators are nonzero. -/
lemma move_eq_of_ne (cfg : Config) (position angle : ℤ)
    (h1 : cfg.total_degrees ≠ 0) (h2 : cfg.mm_per_second ≠ 0) :
    move cfg position angle =
      if clampTarget cfg angle - position = 0 then
        Except.ok ⟨position, []⟩
      else
        Except.ok ⟨clampTarget cfg angle,
          [MotorEvent.setPower (if clampTarget cfg angle - position > 0 then 1 else -1),
           MotorEvent.sleep (time_needed cfg (clampTarget cfg angle - position)),
           MotorEvent.stopMotor]⟩ := by
  by_cases h : clampTarget cfg angle - position = 0
  · simp [move, h]
  · simp [move, h, h1, h2]

/-- A `move` with nonzero denominators completes, ending at the clamped target. -/
lemma move_position_eq (cfg : Config) (position angle : ℤ)
    (h1 : cfg.total_degrees ≠ 0) (h2 : cfg.mm_per_second ≠ 0) :
    ∃ evs, move cfg position angle = Except.ok ⟨clampTarget cfg angle, evs⟩ := by
  rw [move_eq_of_ne cfg position angle h1 h2]
  by_cases h : clampTarget cfg angle - position = 0
  · have hp : clampTarget cfg angle = position := by omega
    exact ⟨[], by rw [if_pos h, hp]⟩
  · exact ⟨_, by rw [if_neg h]⟩

/-- In the demo configuration the run duration is a tenth of the angular
distance: `|d| * (18/180) * 25.4 / 25.4 = |d| / 10`. -/
lemma time_needed_demo (d : ℤ) :
    time_needed cfgDemo d = ((|d| : ℤ) : ℚ) / 10 := by
  rw [time_needed, mm_to_move, inches_to_move, inches_per_degree]
  norm_num [cfgDemo]
  ring

/-- Concrete evaluation: `move(90)` from 0 in the demo configuration. -/
lemma move_demo_0_90 :
    move cfgDemo 0 90 = Except.ok ⟨90,
      [MotorEvent.setPower 1, MotorEvent.sleep 9, MotorEvent.stopMotor]⟩ := by
  have hc : clampTarget cfgDemo 90 = 90 := by norm_num [clampTarget, cfgDemo]
  rw [move_eq_of_ne cfgDemo 0 90 (by norm_num [cfgDemo]) (by norm_num [cfgDemo]), hc,
    time_needed_demo]
  norm_num

/-- Concrete evaluation: `move(270)` from 0 in the demo configuration clamps
to 180 and runs for 18 seconds. -/
lemma move_demo_0_270 :
    move cfgDemo 0 270 = Except.ok ⟨180,
      [MotorEvent.setPower 1, MotorEvent.sleep 18, MotorEvent.stopMotor]⟩ := by
  have hc : clampTarget cfgDemo 270 = 180 := by norm_num [clampTarget, cfgDemo]
  rw [move_eq_of_ne cfgDemo 0 270 (by norm_num [cfgDemo]) (by norm_num [cfgDemo]), hc,
    time_needed_demo]
  norm_num

/-! Claim theorems. -/

/-- C1: for every integer target angle, including targets outside
`[min_position_degrees, max_position_degrees]`, a completed `move(target)`
leaves the position estimate equal to
`clamp(target, min_position_degrees, max_position_degrees)`, and (for an
ordered bounds pair) that value is never out of range. -/
theorem C1_move_clamps (cfg : Config) (position angle : ℤ)
    (h : cfg.min_position_degrees ≤ cfg.max_position_degrees)
    (r : MoveResult) (hr : move cfg position angle = Except.ok r) :
    r.position = clampTarget cfg angle ∧
      cfg.min_position_degrees ≤ r.position ∧
      r.position ≤ cfg.max_position_degrees := by
  have hmem := clampTarget_mem cfg angle h
  have hpos : r.position = clampTarget cfg angle := by
    by_cases h0 : clampTarget cfg angle - position = 0
    · have hp : clampTarget cfg angle = position := by omega
      simp [move, h0] at hr
      rw [← hr, hp]
    · by_cases h1 : cfg.total_degrees = 0
      · simp [move, h0, h1] at hr
      · by_cases h2 : cfg.mm_per_second = 0
        · simp [move, h0, h1, h2] at hr
        · simp [move, h0, h1, h2] at hr
          rw [← hr]
  exact ⟨hpos, by rw [hpos]; exact hmem.1, by rw [hpos]; exact hmem.2⟩

/-- Witness for C1 at a concrete out-of-range request: with the demo
configuration, `move(270)` from position 0 completes at `clamp(270) = 180`,
inside the bounds. -/
theorem C1_move_clamps_witness :
    (MoveResult.mk 180 [MotorEvent.setPower 1, MotorEvent.sleep 18,
        MotorEvent.stopMotor]).position = clampTarget cfgDemo 270 ∧
      cfgDemo.min_position_degrees ≤
        (MoveResult.mk 180 [MotorEvent.setPower 1, MotorEvent.sleep 18,
          MotorEvent.stopMotor]).position ∧
      (MoveResult.mk 180 [MotorEvent.setPower 1, MotorEvent.sleep 18,
        MotorEvent.stopMotor]).position ≤ cfgDemo.max_position_degrees :=
  C1_move_clamps cfgDemo 0 270 (by norm_num [cfgDemo]) _ move_demo_0_270

/-- C2: with `length_inches = 18`, `mm_per_second = 25.4`,
`total_degrees = 180` and current estimate 0, `move(90)` computes
`inches_per_degree = 0.1`, `inches_to_move = 9`, `mm_to_move = 228.6`,
`time_needed = 9` seconds, and the completed call commands power `+1.0`,
waits 9 seconds, stops the motor, and sets the estimate to 90.
(Float arithmetic is modelled exactly over `ℚ`: `25.4 = 127/5`,
`0.1 = 1/10`, `228.6 = 1143/5`.) -/
theorem C2_duration_law :
    inches_per_degree cfgDemo = 1 / 10 ∧
      inches_to_move cfgDemo 90 = 9 ∧
      mm_to_move cfgDemo 90 = 1143 / 5 ∧
      time_needed cfgDemo 90 = 9 ∧
      move cfgDemo 0 90 =
        Except.ok ⟨90, [MotorEvent.setPower 1, MotorEvent.sleep 9,
          MotorEvent.stopMotor]⟩ := by
  have h1 : inches_per_degree cfgDemo = 1 / 10 := by
    rw [inches_per_degree]; norm_num [cfgDemo]
  have h2 : inches_to_move cfgDemo 90 = 9 := by
    rw [inches_to_move, h1]; norm_num
  have h3 : mm_to_move cfgDemo 90 = 1143 / 5 := by
    rw [mm_to_move, h2]; norm_num
  have h4 : time_needed cfgDemo 90 = 9 := by
    rw [time_needed, h3]; norm_num [cfgDemo]
  exact ⟨h1, h2, h3, h4, move_demo_0_90⟩

/-- C5 (failing input): the code does not guarantee the stop command under
cancellation. With the demo configuration, `move(90)` from 0 issues
`set_power 1.0`; if the task is cancelled during the `asyncio.sleep` (one
await completed), the trace contains the run command but no stop command —
the motor is left running — while the estimate is indeed left unmodified. -/
theorem C5_cancel_skips_stop :
    movePartial cfgDemo 0 90 1 = (0, [MotorEvent.setPower 1]) ∧
      MotorEvent.setPower 1 ∈ (movePartial cfgDemo 0 90 1).2 ∧
      MotorEvent.stopMotor ∉ (movePartial cfgDemo 0 90 1).2 := by
  have h : movePartial cfgDemo 0 90 1 = (0, [MotorEvent.setPower 1]) := by
    rw [movePartial, move_demo_0_90]
    norm_num
  exact ⟨h, by rw [h]; simp, by rw [h]; simp⟩

/-- C6: when the requested angle clamps to the current estimate, `move`
returns immediately with an empty event trace (zero motor-driver calls) and
an unchanged estimate; in particular `move(position)` for an in-range
`position` is such a no-op. -/
theorem C6_noop (cfg : Config) (position angle : ℤ) :
    (clampTarget cfg angle = position →
        move cfg position angle = Except.ok ⟨position, []⟩) ∧
      (cfg.min_position_degrees ≤ position → position ≤ cfg.max_position_degrees →
        move cfg position position = Except.ok ⟨position, []⟩) := by
  constructor
  · intro h
    simp [move, h]
  · intro h1 h2
    simp [move, clampTarget_self cfg position h1 h2]

/-- Witness for C6: with the demo configuration at estimate 90, `move(90)`
issues no events and keeps the estimate. -/
theorem C6_noop_witness :
    move cfgDemo 90 90 = Except.ok ⟨90, []⟩ :=
  (C6_noop cfgDemo 90 90).2 (by decide) (by decide)

/-- C3 (counterexample): with `total_degrees = 0` supplied, configuration
intake succeeds — `validate_config` checks only the presence of `motor`,
`length_inches` and `mm_per_second`, and `reconfigure` stores the zero without
complaint and schedules calibration — and the division by zero then occurs at
move time: `move(90)` from estimate 0 raises `ZeroDivisionError`. -/
theorem C3_counterexample :
    configure freshState
        ⟨some "m1", some 18, some (127 / 5), none, none, some 0, some 0⟩ =
      Except.ok ⟨⟨18, 127 / 5, 180, 0, 0⟩, 0, true⟩ ∧
      move ⟨18, 127 / 5, 180, 0, 0⟩ 0 90 = Except.error PyError.zeroDivision := by
  constructor
  · rfl
  · rfl

/-- C3 (amended): configuration intake performs no zero check on
`total_degrees` or `mm_per_second` — any attribute map carrying the three
required keys is accepted — and the division by zero instead surfaces at move
time: every `move` whose clamped target differs from the current estimate
raises `ZeroDivisionError` when either denominator is zero. -/
theorem C3_zero_denominators :
    (∀ a : Attributes, a.motor.isSome = true → a.length_inches.isSome = true →
        a.mm_per_second.isSome = true →
        ∃ s, configure freshState a = Except.ok s) ∧
      (∀ (cfg : Config) (position angle : ℤ),
        cfg.total_degrees = 0 ∨ cfg.mm_per_second = 0 →
        clampTarget cfg angle ≠ position →
        move cfg position angle = Except.error PyError.zeroDivision) := by
  constructor
  · intro a hm hl hmm
    cases hm2 : a.motor with
    | none => rw [hm2] at hm; cases hm
    | some m =>
      cases hl2 : a.length_inches with
      | none => rw [hl2] at hl; cases hl
      | some l =>
        cases hmm2 : a.mm_per_second with
        | none => rw [hmm2] at hmm; cases hmm
        | some q =>
          exact ⟨reconfigure freshState a,
            by simp [configure, validate_config, hm2, hl2, hmm2]⟩
  · intro cfg position angle hden hne
    have h0 : ¬ (clampTarget cfg angle - position = 0) := by
      intro h; exact hne (by omega)
    rcases hden with h | h
    · simp [move, h0, h]
    · by_cases ht : cfg.total_degrees = 0
      · simp [move, h0, ht]
      · simp [move, h0, ht, h]

/-- Witness for the amended C3: a concrete map with the three keys present and
`total_degrees = 0` is accepted, and the first non-no-op `move` on the stored
configuration raises the division error. -/
theorem C3_zero_denominators_witness :
    (∃ s, configure freshState
        ⟨some "m1", some 18, some (127 / 5), none, none, some 0, some 0⟩ =
      Except.ok s) ∧
      move ⟨18, 127 / 5, 180, 0, 0⟩ 0 90 = Except.error PyError.zeroDivision :=
  ⟨C3_zero_denominators.1
      ⟨some "m1", some 18, some (127 / 5), none, none, some 0, some 0⟩ rfl rfl rfl,
    C3_zero_denominators.2 ⟨18, 127 / 5, 180, 0, 0⟩ 0 90 (Or.inl rfl) (by decide)⟩

/-- Calibration from estimate 45 with bounds `[0, 180]`: three legs
`45→0`, `0→180`, `180→45`, ending back at 45. -/
lemma initializeSeq_demo (cfg : Config)
    (hmin : cfg.min_position_degrees = 0) (hmax : cfg.max_position_degrees = 180)
    (h1 : cfg.total_degrees ≠ 0) (h2 : cfg.mm_per_second ≠ 0) :
    (initializeSeq cfg 45).map
        (fun p => (p.1, p.2.map (fun l => (l.startPos, l.requested)))) =
      Except.ok (45, [(45, 0), (0, 180), (180, 45)]) := by
  have c1 : clampTarget cfg 0 = 0 := by simp [clampTarget, hmin, hmax]
  have c2 : clampTarget cfg 180 = 180 := by simp [clampTarget, hmin, hmax]
  have c3 : clampTarget cfg 45 = 45 := by simp [clampTarget, hmin, hmax]
  have m1 : move cfg 45 0 = Except.ok ⟨0,
      [MotorEvent.setPower (-1), MotorEvent.sleep (time_needed cfg (0 - 45)),
       MotorEvent.stopMotor]⟩ := by
    rw [move_eq_of_ne cfg 45 0 h1 h2, c1]; norm_num
  have m2 : move cfg 0 180 = Except.ok ⟨180,
      [MotorEvent.setPower 1, MotorEvent.sleep (time_needed cfg (180 - 0)),
       MotorEvent.stopMotor]⟩ := by
    rw [move_eq_of_ne cfg 0 180 h1 h2, c2]; norm_num
  have m3 : move cfg 180 45 = Except.ok ⟨45,
      [MotorEvent.setPower (-1), MotorEvent.sleep (time_needed cfg (45 - 180)),
       MotorEvent.stopMotor]⟩ := by
    rw [move_eq_of_ne cfg 180 45 h1 h2, c3]; norm_num
  simp [initializeSeq, Except.map, hmin, hmax, m1, m2, m3]

/-- C4: configuring with `start_position = 45`, `min_position_degrees = 0`,
`max_position_degrees = 180` (any motor name, length and nonzero speed;
`total_degrees` defaults to 180) makes the calibration sequence issue exactly
three moves, in order from 45 to 0, from 0 to 180 and from 180 to 45, each a
normal `move` (clamping and duration logic included), and on success the
estimate ends at the captured pre-calibration value 45. -/
theorem C4_calibration (m : String) (L M : ℚ) (hM : M ≠ 0) :
    (initializeSeq
        (reconfigure freshState ⟨some m, some L, some M, some 180, some 0, none, some 45⟩).cfg
        (reconfigure freshState ⟨some m, some L, some M, some 180, some 0, none, some 45⟩).position).map
        (fun p => (p.1, p.2.map (fun l => (l.startPos, l.requested)))) =
      Except.ok (45, [(45, 0), (0, 180), (180, 45)]) :=
  initializeSeq_demo _ rfl rfl (by norm_num [reconfigure, freshState]) hM

/-- Witness for C4 at the demo numbers: motor "m1", `length_inches = 18`,
`mm_per_second = 25.4`. -/
theorem C4_calibration_witness :
    (initializeSeq
        (reconfigure freshState ⟨some "m1", some 18, some (127 / 5), some 180, some 0, none, some 45⟩).cfg
        (reconfigure freshState ⟨some "m1", some 18, some (127 / 5), some 180, some 0, none, some 45⟩).position).map
        (fun p => (p.1, p.2.map (fun l => (l.startPos, l.requested)))) =
      Except.ok (45, [(45, 0), (0, 180), (180, 45)]) :=
  C4_calibration "m1" 18 (127 / 5) (by norm_num)

/-- C7: in every non-no-op completed `move`, the motor power is `-1.0` when
the clamped target is below the current estimate and `+1.0` when it is above
(it is the first event issued, followed by the timed wait and the stop). -/
theorem C7_direction (cfg : Config) (position angle : ℤ)
    (h1 : cfg.total_degrees ≠ 0) (h2 : cfg.mm_per_second ≠ 0) :
    (clampTarget cfg angle < position →
        move cfg position angle = Except.ok ⟨clampTarget cfg angle,
          [MotorEvent.setPower (-1),
           MotorEvent.sleep (time_needed cfg (clampTarget cfg angle - position)),
           MotorEvent.stopMotor]⟩) ∧
      (position < clampTarget cfg angle →
        move cfg position angle = Except.ok ⟨clampTarget cfg angle,
          [MotorEvent.setPower 1,
           MotorEvent.sleep (time_needed cfg (clampTarget cfg angle - position)),
           MotorEvent.stopMotor]⟩) := by
  rw [move_eq_of_ne cfg position angle h1 h2]
  constructor
  · intro h
    have h0 : ¬ (clampTarget cfg angle - position = 0) := by omega
    have hle : ¬ (clampTarget cfg angle - position > 0) := by omega
    rw [if_neg h0, if_neg hle]
  · intro h
    have h0 : ¬ (clampTarget cfg angle - position = 0) := by omega
    have hgt : clampTarget cfg angle - position > 0 := by omega
    rw [if_neg h0, if_pos hgt]

/-- Witness for C7: with the demo configuration at estimate 90, `move(0)`
commands power `-1.0`. -/
theorem C7_direction_witness :
    move cfgDemo 90 0 = Except.ok ⟨clampTarget cfgDemo 0,
      [MotorEvent.setPower (-1),
       MotorEvent.sleep (time_needed cfgDemo (clampTarget cfgDemo 0 - 90)),
       MotorEvent.stopMotor]⟩ :=
  (C7_direction cfgDemo 90 0 (by decide) (by norm_num [cfgDemo])).1 (by decide)

/-- C8: for in-range angles X and Y, the sequence `move(X); move(Y); move(X)`
ends with the estimate at X, and the run duration computed for the leg X→Y
equals the one for Y→X (distance symmetry through the absolute value). -/
theorem C8_round_trip (cfg : Config) (position X Y : ℤ)
    (hX1 : cfg.min_position_degrees ≤ X) (hX2 : X ≤ cfg.max_position_degrees)
    (hY1 : cfg.min_position_degrees ≤ Y) (hY2 : Y ≤ cfg.max_position_degrees)
    (h1 : cfg.total_degrees ≠ 0) (h2 : cfg.mm_per_second ≠ 0) :
    moveSeq cfg position [X, Y, X] = Except.ok X ∧
      time_needed cfg (Y - X) = time_needed cfg (X - Y) := by
  constructor
  · have cX : clampTarget cfg X = X := clampTarget_self cfg X hX1 hX2
    have cY : clampTarget cfg Y = Y := clampTarget_self cfg Y hY1 hY2
    obtain ⟨e1, hm1⟩ := move_position_eq cfg position X h1 h2
    obtain ⟨e2, hm2⟩ := move_position_eq cfg X Y h1 h2
    obtain ⟨e3, hm3⟩ := move_position_eq cfg Y X h1 h2
    rw [cX] at hm1 hm3
    rw [cY] at hm2
    simp [moveSeq, hm1, hm2, hm3]
  · simp [time_needed, mm_to_move, inches_to_move, abs_sub_comm]

/-- Witness for C8: demo configuration, X = 30, Y = 150, starting from 0. -/
theorem C8_round_trip_witness :
    moveSeq cfgDemo 0 [30, 150, 30] = Except.ok 30 ∧
      time_needed cfgDemo (150 - 30) = time_needed cfgDemo (30 - 150) :=
  C8_round_trip cfgDemo 0 30 150 (by decide) (by decide) (by decide) (by decide)
    (by decide) (by norm_num [cfgDemo])

/-- C9: an attribute map missing `motor`, `length_inches` or `mm_per_second`
makes `validate_config` raise, so the whole configuration is rejected and, in
particular, no calibration sequence is ever scheduled (scheduling happens only
inside a successful `reconfigure`). -/
theorem C9_missing_key (a : Attributes)
    (h : a.motor = none ∨ a.length_inches = none ∨ a.mm_per_second = none) :
    (∃ msg, validate_config a = Except.error msg) ∧
      ∀ (prev s : ServoState), configure prev a ≠ Except.ok s := by
  have hv : ∃ msg, validate_config a = Except.error msg := by
    rcases h with h | h | h
    · exact ⟨"motor is required", by simp [validate_config, h]⟩
    · cases hm : a.motor with
      | none => exact ⟨"motor is required", by simp [validate_config, hm]⟩
      | some m =>
        exact ⟨"length_inches is required", by simp [validate_config, hm, h]⟩
    · cases hm : a.motor with
      | none => exact ⟨"motor is required", by simp [validate_config, hm]⟩
      | some m =>
        cases hl : a.length_inches with
        | none =>
          exact ⟨"length_inches is required", by simp [validate_config, hm, hl]⟩
        | some l =>
          exact ⟨"mm_per_second is required", by simp [validate_config, hm, hl, h]⟩
  obtain ⟨msg, hmsg⟩ := hv
  refine ⟨⟨msg, hmsg⟩, ?_⟩
  intro prev s hcontra
  simp [configure, hmsg] at hcontra

/-- Witness for C9: a map with `length_inches` absent is rejected. -/
theorem C9_missing_key_witness :
    (∃ msg, validate_config ⟨some "m1", none, some 1, none, none, none, none⟩ =
        Except.error msg) ∧
      ∀ (prev s : ServoState),
        configure prev ⟨some "m1", none, some 1, none, none, none, none⟩ ≠
          Except.ok s :=
  C9_missing_key ⟨some "m1", none, some 1, none, none, none, none⟩
    (Or.inr (Or.inl rfl))

/-- C10: `get_position`, `stop` and `is_moving` are read-only on the servo
state. `get_position` returns the stored estimate with no motor interaction,
`stop` only forwards the stop command, `is_moving` only forwards the query and
returns the driver's answer, and two `get_position` calls in a row agree. -/
theorem C10_read_only (s : ServoState) (b : Bool) :
    (get_position s).2.1 = s ∧
      (get_position s).1 = s.position ∧
      (get_position s).2.2 = [] ∧
      LinearServo.stop s = (s, [MotorEvent.stopMotor]) ∧
      is_moving s b = (b, s, [MotorEvent.isMovingQuery]) ∧
      (get_position ((get_position s).2.1)).1 = (get_position s).1 :=
  ⟨rfl, rfl, rfl, rfl, rfl, rfl⟩
